import Mathlib

/-!
Shallow embedding of the Gladia real-time transcription bridge
(`src/app.py`, Flask/Socket.IO server) and of the minimal CLI client
(`src/cli.py`).

Python dictionaries whose keys may be present or absent are modelled as
structures of `Option` fields; `d.get(k, default)` becomes `Option.getD`.
Socket.IO emissions, console prints, and binary websocket sends are
recorded in explicit output lists.  Rationals stand in for the JSON
numbers carried in timestamp fields; the bridge only passes them
through, so the exact numeric representation is irrelevant.
-/

namespace GladiaBridge

/-- The per-session configuration captured by `handle_start_stream`
(`src/app.py` lines 188-206).  All five keys are always present once the
config is stored in `active_sessions[sid]['config']`. -/
structure Config where
  speaker_name : String
  partial_results : Bool
  languages : List String
  code_switching : Bool
  custom_vocabulary : List String
deriving Repr, DecidableEq

/-- The optional config dictionary a client may pass to `start_stream`;
each key may be absent (`config.get(key, default)` supplies defaults). -/
structure StartConfig where
  speaker_name : Option String
  partial_results : Option Bool
  languages : Option (List String)
  code_switching : Option Bool
  custom_vocabulary : Option (List String)
deriving Repr, DecidableEq

/-- The empty dict `{}` used when the client sends no argument. -/
def StartConfig.empty : StartConfig :=
  ⟨none, none, none, none, none⟩

/-- The defaulting performed at `src/app.py` lines 185-192:
`config.get('speaker_name', '')`, `config.get('partial_results', True)`,
`config.get('languages', [])`, `config.get('code_switching', False)`,
`config.get('custom_vocabulary', [])`; `config is None` becomes `{}`. -/
def mkSessionConfig (c : Option StartConfig) : Config :=
  let cfg := c.getD StartConfig.empty
  { speaker_name := cfg.speaker_name.getD ""
    partial_results := cfg.partial_results.getD true
    languages := cfg.languages.getD []
    code_switching := cfg.code_switching.getD false
    custom_vocabulary := cfg.custom_vocabulary.getD [] }

/-- The nested `utterance` dictionary of an inbound transcript frame
(`src/app.py` lines 411-416); every key may be absent. -/
structure Utterance where
  text : Option String
  speaker : Option Int
  start : Option ℚ
  end_ : Option ℚ
deriving Repr, DecidableEq

/-- The default `{}` of `data.get('data', {}).get('utterance', {})`. -/
def Utterance.empty : Utterance := ⟨none, none, none, none⟩

/-- The `data` payload of a transcript frame: `is_final` flag and the
nested utterance, either of which may be absent. -/
structure TranscriptData where
  is_final : Option Bool
  utterance : Option Utterance
deriving Repr, DecidableEq

/-- The default `{}` for an absent `data` payload. -/
def TranscriptData.empty : TranscriptData := ⟨none, none⟩

/-- One inbound upstream websocket frame as seen by `on_message`
(`src/app.py` lines 394-442, `src/cli.py` lines 70-114).

`malformed` is a frame whose payload is not valid JSON (so `json.loads`
raises `JSONDecodeError`); the other constructors are valid JSON objects
classified by their `type` discriminator: `transcript`,
`speech_start`/`speech_end` (voice-activity events), `errorFrame`
(`type == 'error'`), and `other` for any other JSON value. -/
inductive Frame where
  | malformed
  | transcript (d : Option TranscriptData)
  | speech_start
  | speech_end
  | errorFrame (message : String)
  | other
deriving Repr, DecidableEq

/-- One event emitted to a browser client over Socket.IO. -/
inductive ClientEvent where
  | stream_started (status : String)
  | stream_stopped (status : String)
  | transcript (speaker : Int) (text : String) (is_final : Bool)
      (speaker_name : Option String) (timestamp : Option ℚ) (end_time : Option ℚ)
  | error (message : String)
deriving Repr, DecidableEq

/-- A registry entry: the Python dict stored at `active_sessions[sid]`,
which may hold a `'config'` key and/or a `'ws'` key (the websocket is
identified by its index in the world's handle list). -/
structure Entry where
  config : Option Config
  ws : Option ℕ
deriving Repr, DecidableEq

/-- The custom speaker name looked up by `on_message` at
`src/app.py` lines 422-425: `None` display unless the client has a
registry entry whose stored config has a `speaker_name`; a missing
`'config'` key defaults to `{}`, whose `speaker_name` defaults to `''`. -/
def storedName (entry : Option Entry) : String :=
  match entry with
  | some e =>
      match e.config with
      | some c => c.speaker_name
      | none => ""
  | none => ""

/-- Handler `on_message` of `src/app.py` (lines 394-442), as a pure function of
the inbound frame and the caller's current registry entry (used only for
the speaker-name lookup).  Returns the list of Socket.IO events emitted
to the client and the list of console log lines.

The whole body runs under `try/except`: `json.JSONDecodeError` is caught
and printed, so a malformed frame yields no event.  Only frames whose
`type` equals `'transcript'` are handled at all; every other frame type
falls through the single `if` and produces nothing. -/
def app_on_message (entry : Option Entry) (f : Frame) :
    List ClientEvent × List String :=
  match f with
  | .malformed => ([], ["Error parsing message"])
  | .transcript d? =>
      let d := d?.getD TranscriptData.empty
      let utterance := d.utterance.getD Utterance.empty
      let speaker := utterance.speaker.getD 0
      let text := utterance.text.getD ""
      let is_final := d.is_final.getD false
      let start_time := utterance.start
      let end_time := utterance.end_
      -- Python `if text:` — truthiness of a string is plain non-emptiness
      if text ≠ "" then
        let display_name : Option String :=
          match entry with
          | some e =>
              let config := e.config
              let stored_name :=
                match config with
                | some c => c.speaker_name
                | none => ""
              if speaker = 0 ∧ stored_name ≠ "" then some stored_name else none
          | none => none
        ([ClientEvent.transcript speaker text is_final display_name start_time end_time],
         ["Transcript: " ++ text])
      else ([], [])
  | .speech_start => ([], [])
  | .speech_end => ([], [])
  | .errorFrame _ => ([], [])
  | .other => ([], [])

/-- Handler `on_error` of `src/app.py` (lines 444-447): a transport-level
websocket error is forwarded to the client as one `error` event. -/
def app_on_error (err : String) : ClientEvent :=
  ClientEvent.error err

/-- The events delivered to a client by the event-forward path over a
sequence of inbound frames: each frame is handled by an independent
`on_message` invocation (the websocket read loop calls the handler once
per frame), so the event stream is the concatenation of the per-frame
results. -/
def app_forward (entry : Option Entry) (frames : List Frame) : List ClientEvent :=
  (frames.map (fun f => (app_on_message entry f).1)).flatten

/-- Python `str.strip()`: remove leading and trailing whitespace. -/
def pyStrip (s : String) : String :=
  ⟨((s.data.dropWhile Char.isWhitespace).reverse.dropWhile Char.isWhitespace).reverse⟩

/-- One line of transcript output produced by the CLI renderer.  The
terminal details (ANSI cursor movement, two-decimal timestamp
formatting, `last_partial_lines` bookkeeping) are display plumbing; the
model records which utterances are printed and with which fields. -/
inductive CliOut where
  | line (speaker : Int) (text : String) (is_final : Bool) (start : ℚ) (end_ : ℚ)
deriving Repr, DecidableEq

/-- Handler `on_message` of `src/cli.py` (lines 70-114).  There `json.loads` is not
wrapped in any `try`, so a malformed frame raises out of the handler
(modelled as `Except.error`).  A transcript frame has its text trimmed
(`.strip()`); empty trimmed text returns early with no output.  The
source constants `SHOW_PARTIAL_RESULTS = True`, `DEBUG_MESSAGES = False`
select the branch that prints one formatted line per surviving frame. -/
def cli_on_message (f : Frame) : Except String (List CliOut) :=
  match f with
  | .malformed => Except.error "JSONDecodeError"
  | .transcript d? =>
      let d := d?.getD TranscriptData.empty
      let utterance := d.utterance.getD Utterance.empty
      let text := pyStrip (utterance.text.getD "")
      if text = "" then Except.ok []
      else
        let speaker := utterance.speaker.getD 0
        let is_final := d.is_final.getD false
        let start := utterance.start.getD 0
        let end_ := utterance.end_.getD 0
        Except.ok [CliOut.line speaker text is_final start end_]
  | _ => Except.ok []

/-- One Gladia websocket connection object (`websocket.WebSocketApp`)
created by `connect_to_gladia_websocket`.  `owner` is the client sid the
enclosing closure was created for; `opened` becomes true once
`run_forever` has established the connection (`on_open` fired, after
which `ws.sock.connected` holds); `closed` becomes true once `close()`
has been called or the remote end closed the connection. -/
structure Handle where
  owner : String
  opened : Bool
  closed : Bool
deriving Repr, DecidableEq

/-- Python `ws.sock and ws.sock.connected`: established and not closed. -/
def Handle.connected (h : Handle) : Bool := h.opened && !h.closed

/-- A handle is live while it has not been closed. -/
def Handle.isOpen (h : Handle) : Bool := !h.closed

/-- The server state: the `active_sessions` dict (association list keyed
by client sid — Python dict keys are unique, and all model operations
preserve uniqueness when started from the empty dict), the pool of
websocket connection objects created so far (a handle is identified by
its index, and is never removed from the pool: closing marks it closed),
and the observable outputs: Socket.IO emissions tagged with their room,
binary audio frames sent upstream tagged with the receiving handle, and
console log lines. -/
structure World where
  sessions : List (String × Entry)
  handles : List Handle
  emits : List (String × ClientEvent)
  sent : List (ℕ × List ℕ)
  logs : List String
deriving Repr, DecidableEq

/-- The state at server start: no sessions, no connections, no output. -/
def World.empty : World := ⟨[], [], [], [], []⟩

/-- Dict lookup `active_sessions[sid]` / `sid in active_sessions`. -/
def lookupSid (sid : String) : List (String × Entry) → Option Entry
  | [] => none
  | (k, e) :: rest => if k = sid then some e else lookupSid sid rest

/-- Assignment `active_sessions[sid]['config'] = c`, creating the entry first when
`sid not in active_sessions` (`src/app.py` lines 198-206); an existing
`'ws'` key is preserved. -/
def setConfigIn (sid : String) (c : Config) :
    List (String × Entry) → List (String × Entry)
  | [] => [(sid, { config := some c, ws := none })]
  | (k, e) :: rest =>
      if k = sid then (k, { e with config := some c }) :: rest
      else (k, e) :: setConfigIn sid c rest

/-- Assignment `active_sessions[sid]['ws'] = h`, creating the entry when absent
(`src/app.py` lines 473-476); an existing `'config'` key is preserved. -/
def setWsIn (sid : String) (h : ℕ) :
    List (String × Entry) → List (String × Entry)
  | [] => [(sid, { config := none, ws := some h })]
  | (k, e) :: rest =>
      if k = sid then (k, { e with ws := some h }) :: rest
      else (k, e) :: setWsIn sid h rest

/-- Deletion `del active_sessions[sid]`: removes the entry for `sid` (dict keys
being unique, removing every pair with that key is the same deletion). -/
def delSid (sid : String) (l : List (String × Entry)) : List (String × Entry) :=
  l.filter (fun p => p.1 != sid)

/-- Call `ws.close()` on the handle at index `i`: idempotent, marks it
closed.  An index beyond the pool leaves the pool unchanged (never the
case in reachable states: registry ws indices always point into the
pool). -/
def closeHandle : ℕ → List Handle → List Handle
  | _, [] => []
  | 0, h :: rest => { h with closed := true } :: rest
  | n + 1, h :: rest => h :: closeHandle n rest

/-- The connection object at index `i` of the pool; an index outside the
pool stands for no object, modelled as a closed, unconnected handle. -/
def World.handleAt (w : World) (i : ℕ) : Handle :=
  w.handles.getD i { owner := "", opened := false, closed := true }

/-- The handles in `w` owned by `sid` and still open. -/
def openHandlesOf (sid : String) (w : World) : List Handle :=
  w.handles.filter (fun h => h.owner == sid && h.isOpen)

/-- The events emitted to client `sid` so far. -/
def emitsTo (sid : String) (w : World) : List ClientEvent :=
  (w.emits.filter (fun p => p.1 == sid)).map (fun p => p.2)

/-- Outcome of the handshake POST in `start_gladia_session`
(`src/app.py` lines 313-344), chosen by the environment:  the request
succeeds, `raise_for_status` raises `HTTPError` carrying the non-success
status code and response body, or some other exception is raised. -/
inductive HandshakeOutcome where
  | ok
  | httpError (statusCode : ℕ) (body : String)
  | exn (message : String)
deriving Repr, DecidableEq

/-- Outcome of the forward attempt inside `handle_audio_data` once the
connected-websocket guard has passed, chosen by the environment:
`base64.b64decode` raises, `ws.send` raises (closed/broken socket), or
the decoded bytes go out as one binary frame. -/
inductive AudioOutcome where
  | decodeError (message : String)
  | sendError (bytes : List ℕ) (message : String)
  | sent (bytes : List ℕ)
deriving Repr, DecidableEq

/-- Function `connect_to_gladia_websocket` (`src/app.py` lines 347-479): create a
new `WebSocketApp` (a fresh handle, not yet connected), store it under
the client's registry entry — overwriting whatever `'ws'` was there,
with no close of any previous handle — then hand it to `run_forever`. -/
def connect_to_gladia_websocket (sid : String) (w : World) : World :=
  let h := w.handles.length
  { w with
    handles := w.handles ++ [{ owner := sid, opened := false, closed := false }]
    sessions := setWsIn sid h w.sessions }

/-- Function `start_gladia_session` (`src/app.py` lines 219-344), the background
thread body.  On a success response it proceeds to
`connect_to_gladia_websocket`; on `HTTPError` it prints and emits one
`error` event whose message interpolates the status code and body; on
any other exception it prints and emits one `error` event with the
exception text.  No branch touches `active_sessions`. -/
def start_gladia_session (sid : String) (outcome : HandshakeOutcome)
    (w : World) : World :=
  let w := { w with logs := w.logs ++ ["Creating Gladia session..."] }
  match outcome with
  | .ok => connect_to_gladia_websocket sid w
  | .httpError code body =>
      { w with
        logs := w.logs ++ ["HTTP Error creating Gladia session"]
        emits := w.emits ++
          [(sid, ClientEvent.error
            ("Failed to create session: " ++ toString code ++ " - " ++ body))] }
  | .exn msg =>
      { w with
        logs := w.logs ++ ["Error creating Gladia session"]
        emits := w.emits ++
          [(sid, ClientEvent.error ("Failed to create session: " ++ msg))] }

/-- Handler `handle_start_stream` (`src/app.py` lines 160-216), the synchronous
part of the `start_stream` handler: default the config fields, store the
config dict in the registry entry (creating it when absent, preserving
an existing `'ws'`), spawn the handshake thread (its body is the
separate action `gladia` below), and emit `stream_started`.  Nothing
here closes or inspects any existing websocket. -/
def handle_start_stream (sid : String) (config : Option StartConfig)
    (w : World) : World :=
  let cfg := mkSessionConfig config
  { w with
    logs := w.logs ++ ["START STREAM CALLED FOR: " ++ sid]
    sessions := setConfigIn sid cfg w.sessions
    emits := w.emits ++ [(sid, ClientEvent.stream_started "ready")] }

/-- Handler `handle_stop_stream` (`src/app.py` lines 528-553): when a registry
entry exists, close its websocket (if any) and delete the entry, both
under exception guards; then — unconditionally, entry or not —
emit `stream_stopped`. -/
def handle_stop_stream (sid : String) (w : World) : World :=
  let w :=
    match lookupSid sid w.sessions with
    | some e =>
        let w :=
          match e.ws with
          | some h => { w with handles := closeHandle h w.handles }
          | none => w
        { w with sessions := delSid sid w.sessions }
    | none => w
  { w with emits := w.emits ++ [(sid, ClientEvent.stream_stopped "stopped")] }

/-- Handler `handle_disconnect` (`src/app.py` lines 138-157): when a registry
entry exists, close its websocket (if any) and delete the entry; emits
nothing.  The whole body is under `try/except` with a printed fallback. -/
def handle_disconnect (sid : String) (w : World) : World :=
  let w := { w with logs := w.logs ++ ["Client disconnected: " ++ sid] }
  match lookupSid sid w.sessions with
  | some e =>
      let w :=
        match e.ws with
        | some h => { w with handles := closeHandle h w.handles }
        | none => w
      { w with sessions := delSid sid w.sessions }
  | none => w

/-- Handler `handle_audio_data` (`src/app.py` lines 482-525): with no registry
entry, print `No active session` and return.  With an entry whose `'ws'`
is absent or not connected, return silently.  Otherwise decode and send:
a raised exception (decode or send) is caught, printed, and reported as
one `error` event; a successful send records one binary frame to the
handle.  No branch touches `active_sessions` or closes anything. -/
def handle_audio_data (sid : String) (outcome : AudioOutcome)
    (w : World) : World :=
  match lookupSid sid w.sessions with
  | some e =>
      match e.ws with
      | some h =>
          if (w.handleAt h).connected then
            match outcome with
            | .sent bytes => { w with sent := w.sent ++ [(h, bytes)] }
            | .sendError _ msg =>
                { w with
                  logs := w.logs ++ ["Error sending audio: " ++ msg]
                  emits := w.emits ++
                    [(sid, ClientEvent.error ("Error sending audio: " ++ msg))] }
            | .decodeError msg =>
                { w with
                  logs := w.logs ++ ["Error sending audio: " ++ msg]
                  emits := w.emits ++
                    [(sid, ClientEvent.error ("Error sending audio: " ++ msg))] }
          else w
      | none => w
  | none => { w with logs := w.logs ++ ["No active session for " ++ sid] }

/-- Mark the handle at index `i` as having an established connection. -/
def openHandle : ℕ → List Handle → List Handle
  | _, [] => []
  | 0, h :: rest => { h with opened := true } :: rest
  | n + 1, h :: rest => h :: openHandle n rest

/-- Callback `on_open` for the handle at index `i` (`src/app.py` lines 459-461):
`run_forever` has established the connection. -/
def ws_on_open (i : ℕ) (w : World) : World :=
  { w with
    handles := openHandle i w.handles
    logs := w.logs ++ ["Connected to Gladia WebSocket"] }

/-- Delivery of one inbound frame to the handler closed over `sid`
(`on_message`, `src/app.py` lines 394-442): the emitted events and log
lines are those of `app_on_message` applied to the client's current
registry entry. -/
def ws_on_message (sid : String) (f : Frame) (w : World) : World :=
  let r := app_on_message (lookupSid sid w.sessions) f
  { w with
    emits := w.emits ++ r.1.map (fun ev => (sid, ev))
    logs := w.logs ++ r.2 }

/-- Callback `on_error` for the connection owned by `sid` (`src/app.py` lines
444-447): forward the transport error as one `error` event. -/
def ws_on_error (sid : String) (err : String) (w : World) : World :=
  { w with
    logs := w.logs ++ ["WebSocket error: " ++ err]
    emits := w.emits ++ [(sid, app_on_error err)] }

/-- Callback `on_close` for the handle at index `i` owned by `sid` (`src/app.py`
lines 449-457): the connection has closed (the handle is marked closed),
and the registry entry for `sid` is deleted when present. -/
def ws_on_close (sid : String) (i : ℕ) (w : World) : World :=
  let w := { w with handles := closeHandle i w.handles }
  match lookupSid sid w.sessions with
  | some _ => { w with sessions := delSid sid w.sessions }
  | none => w

/-- One atomic step of the bridge: a client command handled by the
Socket.IO layer, the handshake thread body, or a websocket callback.
Interleavings of client commands with the asynchronous handshake and
connection callbacks are arbitrary action lists. -/
inductive Action where
  | start (sid : String) (config : Option StartConfig)
  | gladia (sid : String) (outcome : HandshakeOutcome)
  | stop (sid : String)
  | disconnect (sid : String)
  | audio (sid : String) (outcome : AudioOutcome)
  | wsOpen (i : ℕ)
  | wsMessage (sid : String) (f : Frame)
  | wsError (sid : String) (err : String)
  | wsClosed (sid : String) (i : ℕ)
deriving Repr, DecidableEq

/-- The transition function. -/
def step (a : Action) (w : World) : World :=
  match a with
  | .start sid config => handle_start_stream sid config w
  | .gladia sid outcome => start_gladia_session sid outcome w
  | .stop sid => handle_stop_stream sid w
  | .disconnect sid => handle_disconnect sid w
  | .audio sid outcome => handle_audio_data sid outcome w
  | .wsOpen i => ws_on_open i w
  | .wsMessage sid f => ws_on_message sid f w
  | .wsError sid err => ws_on_error sid err w
  | .wsClosed sid i => ws_on_close sid i w

/-- Run a sequence of actions from a state. -/
def run (acts : List Action) (w : World) : World :=
  acts.foldl (fun w a => step a w) w

/-- The utterance text of a transcript frame after the dictionary
defaulting done by both handlers:
`data.get('data', {}).get('utterance', {}).get('text', '')`. -/
def transcriptText (d : Option TranscriptData) : String :=
  ((d.getD TranscriptData.empty).utterance.getD Utterance.empty).text.getD ""

theorem lookupSid_setConfigIn (sid : String) (c : Config)
    (l : List (String × Entry)) :
    lookupSid sid (setConfigIn sid c l) =
      some { config := some c, ws := (lookupSid sid l).bind Entry.ws } := by
  induction l with
  | nil => simp [setConfigIn, lookupSid]
  | cons p rest ih =>
      obtain ⟨k, e⟩ := p
      by_cases hk : k = sid
      · cases e; simp [setConfigIn, lookupSid, hk]
      · simp [setConfigIn, lookupSid, hk, ih]

theorem lookupSid_setWsIn (sid : String) (i : ℕ) (l : List (String × Entry)) :
    lookupSid sid (setWsIn sid i l) =
      some { config := (lookupSid sid l).bind Entry.config, ws := some i } := by
  induction l with
  | nil => simp [setWsIn, lookupSid]
  | cons p rest ih =>
      obtain ⟨k, e⟩ := p
      by_cases hk : k = sid
      · cases e; simp [setWsIn, lookupSid, hk]
      · simp [setWsIn, lookupSid, hk, ih]

theorem lookupSid_delSid (sid : String) (l : List (String × Entry)) :
    lookupSid sid (delSid sid l) = none := by
  induction l with
  | nil => rfl
  | cons p rest ih =>
      obtain ⟨k, e⟩ := p
      by_cases hk : k = sid
      · subst hk; simpa [delSid] using ih
      · simpa [delSid, lookupSid, hk, bne_iff_ne] using ih

theorem lookupSid_stop (sid : String) (w : World) :
    lookupSid sid (handle_stop_stream sid w).sessions = none := by
  unfold handle_stop_stream
  cases hl : lookupSid sid w.sessions with
  | none => simpa using hl
  | some e => cases hws : e.ws <;> simp [hws, lookupSid_delSid]

theorem handleAt_isOpen_lt (w : World) (i : ℕ)
    (h : (w.handleAt i).isOpen = true) : i < w.handles.length := by
  by_contra hge
  push_neg at hge
  rw [World.handleAt, List.getD_eq_default _ _ hge] at h
  simp [Handle.isOpen] at h

theorem stop_of_no_entry (sid : String) (w : World)
    (hnone : lookupSid sid w.sessions = none) :
    handle_stop_stream sid w =
      { w with emits := w.emits ++ [(sid, ClientEvent.stream_stopped "stopped")] } := by
  simp [handle_stop_stream, hnone]

theorem disconnect_of_no_entry (sid : String) (w : World)
    (hnone : lookupSid sid w.sessions = none) :
    handle_disconnect sid w =
      { w with logs := w.logs ++ ["Client disconnected: " ++ sid] } := by
  simp [handle_disconnect, hnone]

/-- C3 counterexample: the server (`src/app.py`) forwards a transcript
frame whose utterance text is a single space — a whitespace-only text
that trims to empty — so a whitespace-only frame is not suppressed. -/
theorem whitespace_transcript_forwarded :
    (app_on_message none
      (Frame.transcript (some ⟨some false, some ⟨some " ", some 1, none, none⟩⟩))).1 =
      [ClientEvent.transcript 1 " " false none none none] ∧
    pyStrip " " = "" := by
  exact ⟨rfl, by decide⟩

/-- C3 (amended): the server suppresses a transcript frame exactly when
its utterance text is the empty string — whitespace-only text is still
forwarded — while the CLI trims first, so there a frame is suppressed
exactly when the text is empty or whitespace-only. -/
theorem empty_text_suppression (entry : Option Entry) (d : Option TranscriptData) :
    ((app_on_message entry (Frame.transcript d)).1 = [] ↔ transcriptText d = "") ∧
    (cli_on_message (Frame.transcript d) = Except.ok [] ↔ pyStrip (transcriptText d) = "") := by
  constructor
  · by_cases h :
      ((d.getD TranscriptData.empty).utterance.getD Utterance.empty).text.getD "" = "" <;>
      simp [app_on_message, transcriptText, h]
  · by_cases h :
      pyStrip (((d.getD TranscriptData.empty).utterance.getD Utterance.empty).text.getD "") = "" <;>
      simp [cli_on_message, transcriptText, h]

/-- C4 counterexample: in `src/cli.py` a frame that is not valid JSON is
not absorbed locally — `json.loads` is not guarded, so the decode error
raises out of the `on_message` handler. -/
theorem cli_malformed_raises :
    cli_on_message Frame.malformed = Except.error "JSONDecodeError" := rfl

/-- C4 (amended): in `src/app.py` a malformed inbound frame is absorbed —
logged, no event emitted, no exception — and the event-forward path still
delivers every subsequent valid frame (removing a malformed frame from
the inbound sequence leaves the delivered events unchanged); in
`src/cli.py`, by contrast, the JSON decode error propagates out of the
handler. -/
theorem malformed_frame_absorbed (entry : Option Entry)
    (pre post : List Frame) :
    app_on_message entry Frame.malformed = ([], ["Error parsing message"]) ∧
    app_forward entry (pre ++ Frame.malformed :: post) = app_forward entry (pre ++ post) ∧
    ∃ e, cli_on_message Frame.malformed = Except.error e := by
  refine ⟨rfl, ?_, ⟨"JSONDecodeError", rfl⟩⟩
  simp [app_forward, app_on_message]

/-- C9 counterexample: an upstream JSON frame of type `error`, and the
voice-activity frames, produce no forwarded event at all — `on_message`
of `src/app.py` only handles `type == 'transcript'` — so they are not
delivered to the client as distinct event kinds. -/
theorem upstream_error_frame_dropped :
    app_on_message none (Frame.errorFrame "bad audio") = ([], []) ∧
    app_on_message none Frame.speech_start = ([], []) ∧
    app_on_message none Frame.speech_end = ([], []) := ⟨rfl, rfl, rfl⟩

/-- C9 (amended): voice-activity frames and upstream error-type frames
are never coerced into transcript events — `on_message` of `src/app.py`
drops them entirely, forwarding nothing; only transport-level websocket
errors, reported through the `on_error` callback, reach the client, and
they arrive as `error` events. -/
theorem non_transcript_frames_never_transcripts (entry : Option Entry)
    (m err : String) :
    app_on_message entry Frame.speech_start = ([], []) ∧
    app_on_message entry Frame.speech_end = ([], []) ∧
    app_on_message entry (Frame.errorFrame m) = ([], []) ∧
    app_on_error err = ClientEvent.error err :=
  ⟨rfl, rfl, rfl, rfl⟩

/-- C6: every transcript event the server forwards carries a display
name equal to the configured custom label exactly when the event's
speaker index is `0` and the stored session config has a non-empty
label; for any other speaker index, or when no label is configured, the
display name is absent. -/
theorem display_name_override (entry : Option Entry) (f : Frame)
    (sp : Int) (txt : String) (fin : Bool) (dn : Option String)
    (ts te : Option ℚ)
    (hmem : ClientEvent.transcript sp txt fin dn ts te ∈ (app_on_message entry f).1) :
    dn = if sp = 0 ∧ storedName entry ≠ "" then some (storedName entry) else none := by
  cases f with
  | transcript d =>
      simp only [app_on_message] at hmem
      split at hmem
      · simp only [List.mem_singleton, ClientEvent.transcript.injEq] at hmem
        obtain ⟨hsp, htxt, hfin, hdn, hts, hte⟩ := hmem
        subst hsp
        cases entry with
        | none => simpa [storedName] using hdn
        | some e =>
            cases e with
            | mk c ws =>
                cases c with
                | none => simpa [storedName] using hdn
                | some cfg => simpa [storedName] using hdn
      · simp at hmem
  | malformed => simp [app_on_message] at hmem
  | speech_start => simp [app_on_message] at hmem
  | speech_end => simp [app_on_message] at hmem
  | errorFrame m => simp [app_on_message] at hmem
  | other => simp [app_on_message] at hmem

/-- C6 witness: a final transcript for speaker `0` under a session whose
config labels speaker `0` as `Alice` is forwarded with that display
name, as the override rule instantiated at this frame requires. -/
theorem display_name_override_witness :
    (ClientEvent.transcript 0 "hi" true (some "Alice") none none ∈
      (app_on_message (some ⟨some ⟨"Alice", true, [], false, []⟩, none⟩)
        (Frame.transcript (some ⟨some true, some ⟨some "hi", some 0, none, none⟩⟩))).1) ∧
    (some "Alice" : Option String) =
      (if (0 : Int) = 0 ∧ storedName (some ⟨some ⟨"Alice", true, [], false, []⟩, none⟩) ≠ ""
       then some (storedName (some ⟨some ⟨"Alice", true, [], false, []⟩, none⟩)) else none) :=
  ⟨by decide,
   display_name_override (some ⟨some ⟨"Alice", true, [], false, []⟩, none⟩)
     (Frame.transcript (some ⟨some true, some ⟨some "hi", some 0, none, none⟩⟩))
     0 "hi" true (some "Alice") none none (by decide)⟩

/-- C7: a transcript frame with non-empty utterance text is forwarded as
one transcript event carrying the frame's speaker index (default `0`
when absent), its text (default empty), its finality flag (default
`false`), and its start and end timestamps (absent when not present). -/
theorem transcript_fields_forwarded (entry : Option Entry)
    (d : Option TranscriptData)
    (h : ((d.getD TranscriptData.empty).utterance.getD Utterance.empty).text.getD "" ≠ "") :
    ∃ dn, (app_on_message entry (Frame.transcript d)).1 =
      [ClientEvent.transcript
        (((d.getD TranscriptData.empty).utterance.getD Utterance.empty).speaker.getD 0)
        (((d.getD TranscriptData.empty).utterance.getD Utterance.empty).text.getD "")
        ((d.getD TranscriptData.empty).is_final.getD false)
        dn
        ((d.getD TranscriptData.empty).utterance.getD Utterance.empty).start
        ((d.getD TranscriptData.empty).utterance.getD Utterance.empty).end_] := by
  simp only [app_on_message, if_pos h]
  exact ⟨_, rfl⟩

/-- C7 witness: the end-to-end example frame
`{type: transcript, data: {is_final: false, utterance: {text: "he",
speaker: 0, start: 0.1, end: 0.4}}}` is forwarded as a transcript event
with speaker index `0`, text `he`, finality `false`, timestamp `0.1`,
and end time `0.4`. -/
theorem transcript_fields_forwarded_witness :
    ("he" : String) ≠ "" ∧
    ∃ dn, (app_on_message none (Frame.transcript
        (some ⟨some false, some ⟨some "he", some 0, some (1/10 : ℚ), some (2/5 : ℚ)⟩⟩))).1 =
      [ClientEvent.transcript 0 "he" false dn (some (1/10 : ℚ)) (some (2/5 : ℚ))] :=
  ⟨by decide,
   transcript_fields_forwarded none
     (some ⟨some false, some ⟨some "he", some 0, some (1/10 : ℚ), some (2/5 : ℚ)⟩⟩)
     (by decide)⟩

/-- C10: a `start_stream` whose config argument is absent, or lacks any
field, is captured with the fixed defaults — empty speaker label,
partial results enabled, empty language list, code switching disabled,
empty vocabulary — and the synchronous handler stores the resulting
config in the registry entry while creating no upstream handle: the
handshake only happens in the later, separate thread-body step. -/
theorem start_stores_defaulted_config (w : World) (sid : String)
    (config : Option StartConfig) :
    lookupSid sid (handle_start_stream sid config w).sessions =
      some { config := some (mkSessionConfig config)
             ws := (lookupSid sid w.sessions).bind Entry.ws } ∧
    (handle_start_stream sid config w).handles = w.handles ∧
    mkSessionConfig none =
      { speaker_name := "", partial_results := true, languages := []
        code_switching := false, custom_vocabulary := [] } ∧
    (∀ sc : StartConfig,
      mkSessionConfig (some sc) =
        { speaker_name := sc.speaker_name.getD ""
          partial_results := sc.partial_results.getD true
          languages := sc.languages.getD []
          code_switching := sc.code_switching.getD false
          custom_vocabulary := sc.custom_vocabulary.getD [] }) := by
  refine ⟨?_, rfl, rfl, fun sc => rfl⟩
  simp [handle_start_stream, lookupSid_setConfigIn]

/-- C1 counterexample: start, connect, then start again for the same
client — the restart registers a second websocket without closing the
first, leaving two open upstream handles for client `c1` at once. -/
theorem two_open_handles_after_restart :
    (openHandlesOf "c1" (run
      [Action.start "c1" none, Action.gladia "c1" HandshakeOutcome.ok, Action.wsOpen 0,
       Action.start "c1" none, Action.gladia "c1" HandshakeOutcome.ok, Action.wsOpen 1]
      World.empty)).length = 2 := by decide

/-- C1 (amended): the registry references at most one handle per client
(its single `ws` slot), but re-entering `start` while streaming does not
close the prior handle: the reconnect step registers a fresh handle for
the client while the previously registered open handle is left untouched
— so still open — and distinct from the new one, so two live upstream
handles coexist for the client. -/
theorem restart_keeps_prior_handle_open (w : World) (sid : String)
    (e : Entry) (h : ℕ)
    (hreg : lookupSid sid w.sessions = some e)
    (_hws : e.ws = some h)
    (hopen : (w.handleAt h).isOpen = true) :
    lookupSid sid ((step (Action.gladia sid HandshakeOutcome.ok) w).sessions) =
      some { config := e.config, ws := some w.handles.length } ∧
    (step (Action.gladia sid HandshakeOutcome.ok) w).handleAt h = w.handleAt h ∧
    ((step (Action.gladia sid HandshakeOutcome.ok) w).handleAt h).isOpen = true ∧
    h ≠ w.handles.length := by
  have hlt := handleAt_isOpen_lt w h hopen
  have hget : ∀ x : Handle, (w.handles ++ [x])[h]? = w.handles[h]? :=
    fun _ => List.getElem?_append_left hlt
  have hsame : (step (Action.gladia sid HandshakeOutcome.ok) w).handleAt h = w.handleAt h := by
    simp [step, start_gladia_session, connect_to_gladia_websocket,
      World.handleAt, List.getD, hget]
  refine ⟨?_, hsame, ?_, Nat.ne_of_lt hlt⟩
  · simp [step, start_gladia_session, connect_to_gladia_websocket,
      lookupSid_setWsIn, hreg]
  · rw [hsame]; exact hopen

/-- C1 witness: a concrete restart — client `c1` streaming on handle
`0`, a second handshake completes — registers handle `1` while handle
`0` stays open. -/
theorem restart_keeps_prior_handle_open_witness :
    lookupSid "c1" ((step (Action.gladia "c1" HandshakeOutcome.ok)
        (run [Action.start "c1" none, Action.gladia "c1" HandshakeOutcome.ok, Action.wsOpen 0]
          World.empty)).sessions) =
      some { config := some (mkSessionConfig none), ws := some 1 } ∧
    (step (Action.gladia "c1" HandshakeOutcome.ok)
        (run [Action.start "c1" none, Action.gladia "c1" HandshakeOutcome.ok, Action.wsOpen 0]
          World.empty)).handleAt 0 =
      (run [Action.start "c1" none, Action.gladia "c1" HandshakeOutcome.ok, Action.wsOpen 0]
          World.empty).handleAt 0 ∧
    (((step (Action.gladia "c1" HandshakeOutcome.ok)
        (run [Action.start "c1" none, Action.gladia "c1" HandshakeOutcome.ok, Action.wsOpen 0]
          World.empty)).handleAt 0).isOpen = true) ∧
    (0 : ℕ) ≠ 1 :=
  restart_keeps_prior_handle_open
    (run [Action.start "c1" none, Action.gladia "c1" HandshakeOutcome.ok, Action.wsOpen 0]
      World.empty)
    "c1" ⟨some (mkSessionConfig none), some 0⟩ 0 (by decide) rfl (by decide)

/-- C2 counterexample: after the handshake fails with HTTP 401, no
handle was opened and exactly one `error` event reached the client, but
the client's registry entry is still present — the error path of
`start_gladia_session` never removes it. -/
theorem handshake_error_entry_not_removed :
    (run [Action.start "c1" none,
          Action.gladia "c1" (HandshakeOutcome.httpError 401 "Unauthorized")]
        World.empty).handles = [] ∧
    ((emitsTo "c1" (run [Action.start "c1" none,
          Action.gladia "c1" (HandshakeOutcome.httpError 401 "Unauthorized")]
        World.empty)).filter
      (fun ev => match ev with | ClientEvent.error _ => true | _ => false)).length = 1 ∧
    lookupSid "c1" (run [Action.start "c1" none,
          Action.gladia "c1" (HandshakeOutcome.httpError 401 "Unauthorized")]
        World.empty).sessions ≠ none := by decide

/-- C2 (amended): when the handshake responds with a non-success HTTP
status, no upstream handle is ever opened for the client and the client
receives exactly one `error` event, whose message contains the status
code; but the client's registry entry is not removed — it survives,
holding the captured config and no websocket. -/
theorem handshake_http_error_behavior (sid : String)
    (config : Option StartConfig) (code : ℕ) (body : String) :
    (run [Action.start sid config,
          Action.gladia sid (HandshakeOutcome.httpError code body)]
        World.empty).handles = [] ∧
    emitsTo sid (run [Action.start sid config,
          Action.gladia sid (HandshakeOutcome.httpError code body)]
        World.empty) =
      [ClientEvent.stream_started "ready",
       ClientEvent.error ("Failed to create session: " ++ toString code ++ " - " ++ body)] ∧
    (∃ pre post,
      ("Failed to create session: " ++ toString code ++ " - " ++ body) =
        pre ++ toString code ++ post) ∧
    lookupSid sid (run [Action.start sid config,
          Action.gladia sid (HandshakeOutcome.httpError code body)]
        World.empty).sessions =
      some { config := some (mkSessionConfig config), ws := none } := by
  refine ⟨rfl, ?_, ?_, ?_⟩
  · simp [run, step, handle_start_stream, start_gladia_session, emitsTo, World.empty]
  · refine ⟨"Failed to create session: ", " - " ++ body, ?_⟩
    apply String.ext
    simp [String.data_append, List.append_assoc]
  · simp [run, step, handle_start_stream, start_gladia_session, World.empty,
      setConfigIn, lookupSid]

/-- C5 counterexample: two consecutive `stop` commands emit
`stream_stopped` twice — the second invocation duplicates the emission,
because `handle_stop_stream` emits unconditionally. -/
theorem stop_twice_duplicates_stream_stopped :
    ((emitsTo "c1" (run
        [Action.start "c1" none, Action.stop "c1", Action.stop "c1"] World.empty)).filter
      (fun ev => match ev with | ClientEvent.stream_stopped _ => true | _ => false)).length
      = 2 := by decide

/-- C5 (amended): teardown never raises and is idempotent on the
registry, the handles, and the sent audio — a second `stop`, or a
`disconnect` after `stop`, changes none of that state — but each `stop`
invocation emits `stream_stopped` again (the emission is unconditional),
and a `stop` with no registry entry still emits it while leaving all
state untouched; `disconnect` emits nothing. -/
theorem teardown_idempotent_state (w : World) (sid : String) :
    (handle_stop_stream sid (handle_stop_stream sid w)).sessions =
      (handle_stop_stream sid w).sessions ∧
    (handle_stop_stream sid (handle_stop_stream sid w)).handles =
      (handle_stop_stream sid w).handles ∧
    (handle_stop_stream sid (handle_stop_stream sid w)).sent =
      (handle_stop_stream sid w).sent ∧
    (handle_stop_stream sid (handle_stop_stream sid w)).emits =
      (handle_stop_stream sid w).emits ++ [(sid, ClientEvent.stream_stopped "stopped")] ∧
    (handle_disconnect sid (handle_stop_stream sid w)).sessions =
      (handle_stop_stream sid w).sessions ∧
    (handle_disconnect sid (handle_stop_stream sid w)).handles =
      (handle_stop_stream sid w).handles ∧
    (handle_disconnect sid (handle_stop_stream sid w)).emits =
      (handle_stop_stream sid w).emits ∧
    (lookupSid sid w.sessions = none →
      handle_stop_stream sid w =
        { w with emits := w.emits ++ [(sid, ClientEvent.stream_stopped "stopped")] }) := by
  have hstop := stop_of_no_entry sid (handle_stop_stream sid w) (lookupSid_stop sid w)
  have hdis := disconnect_of_no_entry sid (handle_stop_stream sid w) (lookupSid_stop sid w)
  refine ⟨?_, ?_, ?_, ?_, ?_, ?_, ?_, fun h => stop_of_no_entry sid w h⟩
  · rw [hstop]
  · rw [hstop]
  · rw [hstop]
  · rw [hstop]
  · rw [hdis]
  · rw [hdis]
  · rw [hdis]

/-- C5 witness: a `stop` with no registry entry at all raises no error,
changes no state, and still emits `stream_stopped`. -/
theorem teardown_idempotent_state_witness :
    handle_stop_stream "c1" World.empty =
      { World.empty with emits := [("c1", ClientEvent.stream_stopped "stopped")] } :=
  (teardown_idempotent_state World.empty "c1").2.2.2.2.2.2.2 rfl

/-- C8 counterexample: with a registry entry present but no websocket
yet (a `start` whose handshake has not completed), an audio chunk is a
completely silent no-op — nothing is logged, though the claim says every
non-streaming call logs. -/
theorem audio_silent_when_no_ws :
    (lookupSid "c1" (run [Action.start "c1" none] World.empty).sessions).isSome = true ∧
    handle_audio_data "c1" (AudioOutcome.sent [7])
        (run [Action.start "c1" none] World.empty) =
      run [Action.start "c1" none] World.empty := by decide

/-- C8 (amended): audio forwarding — with no registry entry the call
only logs; with an entry whose websocket is absent or not connected it
is a completely silent no-op; in the streaming case the decoded bytes go
upstream verbatim as one binary frame; and a decode or send failure is
caught, logged, and surfaced as one non-fatal `error` event with no
change to sessions, handles, or sent audio. -/
theorem audio_forward_behavior (w : World) (sid : String) (out : AudioOutcome) :
    (lookupSid sid w.sessions = none →
      handle_audio_data sid out w =
        { w with logs := w.logs ++ ["No active session for " ++ sid] }) ∧
    (∀ e, lookupSid sid w.sessions = some e → e.ws = none →
      handle_audio_data sid out w = w) ∧
    (∀ e h, lookupSid sid w.sessions = some e → e.ws = some h →
      (w.handleAt h).connected = false →
      handle_audio_data sid out w = w) ∧
    (∀ e h bytes, lookupSid sid w.sessions = some e → e.ws = some h →
      (w.handleAt h).connected = true → out = AudioOutcome.sent bytes →
      handle_audio_data sid out w = { w with sent := w.sent ++ [(h, bytes)] }) ∧
    (∀ e h msg, lookupSid sid w.sessions = some e → e.ws = some h →
      (w.handleAt h).connected = true →
      (out = AudioOutcome.decodeError msg ∨ ∃ b, out = AudioOutcome.sendError b msg) →
      handle_audio_data sid out w =
        { w with
          logs := w.logs ++ ["Error sending audio: " ++ msg]
          emits := w.emits ++
            [(sid, ClientEvent.error ("Error sending audio: " ++ msg))] }) := by
  refine ⟨?_, ?_, ?_, ?_, ?_⟩
  · intro hl; simp [handle_audio_data, hl]
  · intro e hl hws; simp [handle_audio_data, hl, hws]
  · intro e h hl hws hconn; simp [handle_audio_data, hl, hws, hconn]
  · intro e h bytes hl hws hconn hout
    subst hout; simp [handle_audio_data, hl, hws, hconn]
  · intro e h msg hl hws hconn hout
    rcases hout with hout | ⟨b, hout⟩ <;> subst hout <;>
      simp [handle_audio_data, hl, hws, hconn]

/-- C8 witness: with no registry entry an audio chunk only logs, and in
a concrete streaming state (start, handshake success, connection open)
the bytes `[7, 8]` are forwarded verbatim as one binary frame to the
registered handle. -/
theorem audio_forward_behavior_witness :
    handle_audio_data "c1" (AudioOutcome.sent [7, 8]) World.empty =
      { World.empty with logs := ["No active session for c1"] } ∧
    handle_audio_data "c1" (AudioOutcome.sent [7, 8])
        (run [Action.start "c1" none, Action.gladia "c1" HandshakeOutcome.ok,
              Action.wsOpen 0] World.empty) =
      { (run [Action.start "c1" none, Action.gladia "c1" HandshakeOutcome.ok,
              Action.wsOpen 0] World.empty) with sent := [(0, [7, 8])] } :=
  ⟨(audio_forward_behavior World.empty "c1" (AudioOutcome.sent [7, 8])).1 rfl,
   (audio_forward_behavior
      (run [Action.start "c1" none, Action.gladia "c1" HandshakeOutcome.ok,
            Action.wsOpen 0] World.empty)
      "c1" (AudioOutcome.sent [7, 8])).2.2.2.1
     ⟨some (mkSessionConfig none), some 0⟩ 0 [7, 8] (by decide) rfl (by decide) rfl⟩

end GladiaBridge
